import Mathlib

/-!
Shallow embedding of the Kavout front-end dashboard.

The repository has two source files:
* `frontend/src/api.js` — four thin HTTP wrappers (`trainModel`, `predictStock`,
  `getSymbols`, `getHistory`);
* the main React component (`App`) — form state, four action handlers
  (`onTrainSubmit`, `onPredictSubmit`, `onLoadHistory`, `loadSymbols`), and the
  derived view models `chartData` and `forecastRows`.

Numbers are modelled as `Rat`; JavaScript's `Number` string coercion is an
external builtin and is passed in as an abstract parameter `num : String → Rat`.
Each handler is modelled as a pure function from the current component state and
the outcome of its (single) HTTP call to the new state, paired with the list of
requests it issued during the run.
-/

namespace Kavout

/-- HTTP method of a request issued through `axios` in `api.js`. -/
inductive Method where
  | GET
  | POST
deriving DecidableEq, Repr

/-- A `{date, value}` series point, as in `ForecastResult.history`,
`ForecastResult.forecast` and `HistoryResponse.history`. -/
structure Point where
  date : String
  value : Rat
deriving DecidableEq, Repr

/-- Response body of `POST /api/train`, from the fields the component reads. -/
structure TrainResult where
  ticker : String
  source : String
  val_loss : Rat
  val_rmse : Rat
  direction_accuracy : Rat
deriving DecidableEq, Repr

/-- Response body of `POST /api/predict`, from the fields the component reads. -/
structure ForecastResult where
  ticker : String
  source : String
  last_close : Rat
  horizon : Rat
  history : List Point
  forecast : List Point
deriving DecidableEq, Repr

/-- Response body of `GET /api/symbols`; the `symbols` field may be absent
(the component guards with `data.symbols || []`). -/
structure SymbolsResponse where
  symbols : Option (List String)
deriving DecidableEq, Repr

/-- Response body of `GET /api/history`; the `history` field may be absent
(the component guards with `data.history || []`). -/
structure HistoryResponse where
  history : Option (List Point)
deriving DecidableEq, Repr

/-- The train form state (`trainForm`). Form inputs are controlled text /
select fields, so every field is a string; numeric fields are coerced with
`Number(...)` only when the payload is built. -/
structure TrainForm where
  ticker : String
  period : String
  input_len : String
  pred_len : String
  epochs : String
  batch_size : String
  learning_rate : String
  data_source : String
  local_data_dir : String
deriving DecidableEq, Repr

/-- The predict form state (`predictForm`). -/
structure PredictForm where
  ticker : String
  horizon : String
  history_points : String
  data_source : String
  local_data_dir : String
deriving DecidableEq, Repr

/-- Body of `POST /api/train`, built in `onTrainSubmit` by spreading
`trainForm` and overriding the numeric fields and `local_data_dir`. -/
structure TrainPayload where
  ticker : String
  period : String
  input_len : Rat
  pred_len : Rat
  epochs : Rat
  batch_size : Rat
  learning_rate : Rat
  data_source : String
  local_data_dir : Option String
deriving DecidableEq, Repr

/-- Body of `POST /api/predict`, built in `onPredictSubmit`. -/
structure PredictPayload where
  ticker : String
  horizon : Rat
  history_points : Rat
  data_source : String
  local_data_dir : Option String
deriving DecidableEq, Repr

/-- Query parameters of `GET /api/symbols`, built in `loadSymbols`
(`local_data_dir: localDataDir || undefined`). -/
structure SymbolsParams where
  data_source : String
  local_data_dir : Option String
deriving DecidableEq, Repr

/-- Query parameters of `GET /api/history`, built in `onLoadHistory`. -/
structure HistoryParams where
  ticker : String
  history_points : Rat
  data_source : String
  local_data_dir : Option String
deriving DecidableEq, Repr

/-- Payload or query string carried by a request. -/
inductive ReqData where
  | trainData (p : TrainPayload)
  | predictData (p : PredictPayload)
  | symbolsData (p : SymbolsParams)
  | historyData (p : HistoryParams)
deriving DecidableEq, Repr

/-- An HTTP request as issued by the `api.js` wrappers. -/
structure Request where
  method : Method
  path : String
  data : ReqData
deriving DecidableEq, Repr

/-- `api.js` `trainModel`: `api.post("/api/train", payload)`. -/
def trainModel (payload : TrainPayload) : Request :=
  { method := Method.POST, path := "/api/train", data := ReqData.trainData payload }

/-- `api.js` `predictStock`: `api.post("/api/predict", payload)`. -/
def predictStock (payload : PredictPayload) : Request :=
  { method := Method.POST, path := "/api/predict", data := ReqData.predictData payload }

/-- `api.js` `getSymbols`: `api.get("/api/symbols", { params })`. -/
def getSymbols (params : SymbolsParams) : Request :=
  { method := Method.GET, path := "/api/symbols", data := ReqData.symbolsData params }

/-- `api.js` `getHistory`: `api.get("/api/history", { params })`. -/
def getHistory (params : HistoryParams) : Request :=
  { method := Method.GET, path := "/api/history", data := ReqData.historyData params }

/-- A thrown request error, as read by the catch blocks:
`err?.response?.data?.detail` (absent when the server sent no detail) and
`err.message`. -/
structure JsErr where
  responseDetail : Option String
  message : String
deriving DecidableEq, Repr

/-- JavaScript `a || b` on strings, where the empty string is falsy. -/
def jsOrStr (a b : String) : String :=
  if a = "" then b else a

/-- The error message chosen by the catch blocks:
`err?.response?.data?.detail || err.message || fallback` (an absent detail and
an empty string are both falsy). -/
def errMessage (e : JsErr) (fallback : String) : String :=
  jsOrStr (e.responseDetail.getD "") (jsOrStr e.message fallback)

/-- The component state held in the `useState` hooks of `App`. -/
structure AppState where
  trainForm : TrainForm
  predictForm : PredictForm
  symbols : List String
  trainResult : Option TrainResult
  forecastResult : Option ForecastResult
  historyOnly : List Point
  loadingTrain : Bool
  loadingPredict : Bool
  loadingHistory : Bool
  loadingSymbols : Bool
  error : String
deriving DecidableEq, Repr

/-- The `initialTrain` constant. -/
def initialTrain : TrainForm :=
  { ticker := "RELIANCE", period := "5y", input_len := "60", pred_len := "5",
    epochs := "30", batch_size := "32", learning_rate := "0.001",
    data_source := "local", local_data_dir := "" }

/-- The `initialPredict` constant. -/
def initialPredict : PredictForm :=
  { ticker := "RELIANCE", horizon := "10", history_points := "90",
    data_source := "local", local_data_dir := "" }

/-- The initial values of the `useState` hooks of `App`. -/
def initialState : AppState :=
  { trainForm := initialTrain, predictForm := initialPredict, symbols := [],
    trainResult := none, forecastResult := none, historyOnly := [],
    loadingTrain := false, loadingPredict := false, loadingHistory := false,
    loadingSymbols := false, error := "" }

/-- One entry of the derived `chartData` series (`null` becomes `none`). -/
structure ChartPoint where
  date : String
  history : Option Rat
  forecast : Option Rat
deriving DecidableEq, Repr

/-- The `chartData` memo: with a forecast result, mapped history points followed
by mapped forecast points; otherwise the history-only series when non-empty;
otherwise empty. -/
def chartData (forecastResult : Option ForecastResult) (historyOnly : List Point) :
    List ChartPoint :=
  match forecastResult with
  | some fr =>
      fr.history.map (fun point =>
        { date := point.date, history := some point.value, forecast := none })
        ++ fr.forecast.map (fun point =>
        { date := point.date, history := none, forecast := some point.value })
  | none =>
      if historyOnly.length > 0 then
        historyOnly.map (fun point =>
          { date := point.date, history := some point.value, forecast := none })
      else []

/-- One row of the derived `forecastRows` tape. -/
structure ForecastRow where
  step : Nat
  date : String
  value : Rat
  delta : Rat
  pct : Rat
deriving DecidableEq, Repr

/-- The `forecastRows` memo: empty without a forecast result; otherwise one row
per forecast point, with `delta = value - last_close` and
`pct = base === 0 ? 0 : (delta / base) * 100`. -/
def forecastRows (forecastResult : Option ForecastResult) : List ForecastRow :=
  match forecastResult with
  | none => []
  | some fr =>
      fr.forecast.enum.map (fun pair =>
        let delta := pair.2.value - fr.last_close
        let pct := if fr.last_close = 0 then 0 else delta / fr.last_close * 100
        { step := pair.1 + 1, date := pair.2.date, value := pair.2.value,
          delta := delta, pct := pct })

/-- The train payload built in `onTrainSubmit`:
`{...trainForm, input_len: Number(...), ..., local_data_dir: trainForm.local_data_dir || null}`. -/
def buildTrainPayload (num : String → Rat) (form : TrainForm) : TrainPayload :=
  { ticker := form.ticker, period := form.period,
    input_len := num form.input_len, pred_len := num form.pred_len,
    epochs := num form.epochs, batch_size := num form.batch_size,
    learning_rate := num form.learning_rate,
    data_source := form.data_source,
    local_data_dir := if form.local_data_dir = "" then none else some form.local_data_dir }

/-- The predict payload built in `onPredictSubmit`. -/
def buildPredictPayload (num : String → Rat) (form : PredictForm) : PredictPayload :=
  { ticker := form.ticker,
    horizon := num form.horizon, history_points := num form.history_points,
    data_source := form.data_source,
    local_data_dir := if form.local_data_dir = "" then none else some form.local_data_dir }

/-- The `onTrainSubmit` handler. It clears `error`, sets `loadingTrain`, issues
the one `trainModel` call; on success it stores the result and copies
`ticker`, `data_source`, `local_data_dir` from the train form into the predict
form; on failure it sets the error message; `loadingTrain` is reset in
`finally`. The second component is the list of requests issued. -/
def onTrainSubmit (num : String → Rat) (s : AppState)
    (resp : Except JsErr TrainResult) : AppState × List Request :=
  let s0 := { s with error := "", loadingTrain := true }
  let req := trainModel (buildTrainPayload num s0.trainForm)
  match resp with
  | Except.ok d =>
      ({ s0 with
          trainResult := some d,
          predictForm := { s0.predictForm with
            ticker := s0.trainForm.ticker,
            data_source := s0.trainForm.data_source,
            local_data_dir := s0.trainForm.local_data_dir },
          loadingTrain := false }, [req])
  | Except.error e =>
      ({ s0 with error := errMessage e "Training failed", loadingTrain := false }, [req])

/-- The `onPredictSubmit` handler: one `predictStock` call; on success it stores
the forecast result and clears `historyOnly`; on failure it sets the error. -/
def onPredictSubmit (num : String → Rat) (s : AppState)
    (resp : Except JsErr ForecastResult) : AppState × List Request :=
  let s0 := { s with error := "", loadingPredict := true }
  let req := predictStock (buildPredictPayload num s0.predictForm)
  match resp with
  | Except.ok d =>
      ({ s0 with
          forecastResult := some d,
          historyOnly := [],
          loadingPredict := false }, [req])
  | Except.error e =>
      ({ s0 with
          error := errMessage e "Prediction failed",
          loadingPredict := false }, [req])

/-- The `onLoadHistory` handler: one `getHistory` call with parameters taken
from the predict form (`local_data_dir || undefined`); on success it stores
`data.history || []` and clears the forecast result; on failure it sets the
error. -/
def onLoadHistory (num : String → Rat) (s : AppState)
    (resp : Except JsErr HistoryResponse) : AppState × List Request :=
  let s0 := { s with error := "", loadingHistory := true }
  let req := getHistory
    { ticker := s0.predictForm.ticker,
      history_points := num s0.predictForm.history_points,
      data_source := s0.predictForm.data_source,
      local_data_dir := if s0.predictForm.local_data_dir = "" then none
        else some s0.predictForm.local_data_dir }
  match resp with
  | Except.ok d =>
      ({ s0 with
          historyOnly := d.history.getD [],
          forecastResult := none,
          loadingHistory := false }, [req])
  | Except.error e =>
      ({ s0 with
          error := errMessage e "History fetch failed",
          loadingHistory := false }, [req])

/-- The `loadSymbols` function: when the source is `"yfinance"` it clears the
symbols and returns without any HTTP call; otherwise it issues one `getSymbols`
call, stores `data.symbols || []` on success, and on failure silently sets the
symbols to `[]` (the catch block does not touch `error`). -/
def loadSymbols (s : AppState) (dataSource localDataDir : String)
    (resp : Except JsErr SymbolsResponse) : AppState × List Request :=
  if dataSource = "yfinance" then
    ({ s with symbols := [] }, [])
  else
    let s0 := { s with loadingSymbols := true }
    let req := getSymbols
      { data_source := dataSource,
        local_data_dir := if localDataDir = "" then none else some localDataDir }
    match resp with
    | Except.ok d =>
        ({ s0 with symbols := d.symbols.getD [], loadingSymbols := false }, [req])
    | Except.error _ =>
        ({ s0 with symbols := [], loadingSymbols := false }, [req])

/-- The `applySymbol` handler: writes the clicked symbol into both tickers. -/
def applySymbol (s : AppState) (symbol : String) : AppState :=
  { s with trainForm := { s.trainForm with ticker := symbol },
           predictForm := { s.predictForm with ticker := symbol } }

/-- A completed user action of the component: a submitted train form, a
submitted predict form, a history load, a symbols refresh (the `useEffect`
reacting to the train form's source fields), a quick-symbol click, or any of
the controlled form edits (each `onChange` only rewrites one form). The
`Except` argument is the outcome of the action's HTTP call. -/
inductive Action where
  | trainAction (resp : Except JsErr TrainResult)
  | predictAction (resp : Except JsErr ForecastResult)
  | historyAction (resp : Except JsErr HistoryResponse)
  | symbolsAction (resp : Except JsErr SymbolsResponse)
  | pickSymbol (symbol : String)
  | editTrain (form : TrainForm)
  | editPredict (form : PredictForm)

/-- One completed user action: the new state and the requests issued. -/
def step (num : String → Rat) (s : AppState) (a : Action) : AppState × List Request :=
  match a with
  | Action.trainAction resp => onTrainSubmit num s resp
  | Action.predictAction resp => onPredictSubmit num s resp
  | Action.historyAction resp => onLoadHistory num s resp
  | Action.symbolsAction resp =>
      loadSymbols s s.trainForm.data_source s.trainForm.local_data_dir resp
  | Action.pickSymbol symbol => (applySymbol s symbol, [])
  | Action.editTrain form => ({ s with trainForm := form }, [])
  | Action.editPredict form => ({ s with predictForm := form }, [])

/-- Run a sequence of completed user actions from a state. -/
def runActions (num : String → Rat) (s : AppState) : List Action → AppState
  | [] => s
  | a :: rest => runActions num (step num s a).1 rest

/-- At most one of the two chart sources is populated. -/
def atMostOneSeries (s : AppState) : Prop :=
  s.forecastResult = none ∨ s.historyOnly = []

/-- A request produced by one of the four `api.js` wrapper functions. -/
def viaApiWrapper (r : Request) : Prop :=
  (∃ p, r = trainModel p) ∨ (∃ p, r = predictStock p) ∨
    (∃ p, r = getSymbols p) ∨ (∃ p, r = getHistory p)

/-- Claim C10: after every successful train submission, the predict form's
ticker, data source and local data directory are overwritten with the train
form's values, while its horizon and history points are unchanged. -/
theorem c10_train_syncs_predict_form (num : String → Rat) (s : AppState)
    (d : TrainResult) :
    (onTrainSubmit num s (Except.ok d)).1.predictForm.ticker = s.trainForm.ticker ∧
    (onTrainSubmit num s (Except.ok d)).1.predictForm.data_source = s.trainForm.data_source ∧
    (onTrainSubmit num s (Except.ok d)).1.predictForm.local_data_dir = s.trainForm.local_data_dir ∧
    (onTrainSubmit num s (Except.ok d)).1.predictForm.horizon = s.predictForm.horizon ∧
    (onTrainSubmit num s (Except.ok d)).1.predictForm.history_points = s.predictForm.history_points :=
  ⟨rfl, rfl, rfl, rfl, rfl⟩

/-- Claim C9: on request failure the result state is unchanged. A failed train
submit leaves both forms and all three results as they were; a failed predict
submit and a failed history load likewise; in each case only the error message
and the handler's own loading flag change (the flag ends at `false`). -/
theorem c9_failure_frame (num : String → Rat) (s : AppState) (e : JsErr) :
    (onTrainSubmit num s (Except.error e)).1.trainForm = s.trainForm ∧
    (onTrainSubmit num s (Except.error e)).1.predictForm = s.predictForm ∧
    (onTrainSubmit num s (Except.error e)).1.trainResult = s.trainResult ∧
    (onTrainSubmit num s (Except.error e)).1.forecastResult = s.forecastResult ∧
    (onTrainSubmit num s (Except.error e)).1.historyOnly = s.historyOnly ∧
    (onTrainSubmit num s (Except.error e)).1.symbols = s.symbols ∧
    (onTrainSubmit num s (Except.error e)).1.loadingPredict = s.loadingPredict ∧
    (onTrainSubmit num s (Except.error e)).1.loadingHistory = s.loadingHistory ∧
    (onTrainSubmit num s (Except.error e)).1.loadingTrain = false ∧
    (onTrainSubmit num s (Except.error e)).1.error = errMessage e "Training failed" ∧
    (onPredictSubmit num s (Except.error e)).1.trainForm = s.trainForm ∧
    (onPredictSubmit num s (Except.error e)).1.predictForm = s.predictForm ∧
    (onPredictSubmit num s (Except.error e)).1.trainResult = s.trainResult ∧
    (onPredictSubmit num s (Except.error e)).1.forecastResult = s.forecastResult ∧
    (onPredictSubmit num s (Except.error e)).1.historyOnly = s.historyOnly ∧
    (onPredictSubmit num s (Except.error e)).1.symbols = s.symbols ∧
    (onPredictSubmit num s (Except.error e)).1.loadingPredict = false ∧
    (onPredictSubmit num s (Except.error e)).1.error = errMessage e "Prediction failed" ∧
    (onLoadHistory num s (Except.error e)).1.trainForm = s.trainForm ∧
    (onLoadHistory num s (Except.error e)).1.predictForm = s.predictForm ∧
    (onLoadHistory num s (Except.error e)).1.trainResult = s.trainResult ∧
    (onLoadHistory num s (Except.error e)).1.forecastResult = s.forecastResult ∧
    (onLoadHistory num s (Except.error e)).1.historyOnly = s.historyOnly ∧
    (onLoadHistory num s (Except.error e)).1.symbols = s.symbols ∧
    (onLoadHistory num s (Except.error e)).1.loadingHistory = false ∧
    (onLoadHistory num s (Except.error e)).1.error = errMessage e "History fetch failed" :=
  ⟨rfl, rfl, rfl, rfl, rfl, rfl, rfl, rfl, rfl, rfl, rfl, rfl, rfl, rfl, rfl,
    rfl, rfl, rfl, rfl, rfl, rfl, rfl, rfl, rfl, rfl, rfl⟩

/-- Claim C6: every train submission sends the five numeric hyperparameters
`Number`-coerced from the form's string values, every predict submission sends
`horizon` and `history_points` coerced, and in both payloads `local_data_dir`
is `null` exactly when the form field is empty. -/
theorem c6_payload_coercion (num : String → Rat) (s : AppState)
    (rt : Except JsErr TrainResult) (rp : Except JsErr ForecastResult) :
    (onTrainSubmit num s rt).2 = [trainModel (buildTrainPayload num s.trainForm)] ∧
    (onPredictSubmit num s rp).2 = [predictStock (buildPredictPayload num s.predictForm)] ∧
    (buildTrainPayload num s.trainForm).input_len = num s.trainForm.input_len ∧
    (buildTrainPayload num s.trainForm).pred_len = num s.trainForm.pred_len ∧
    (buildTrainPayload num s.trainForm).epochs = num s.trainForm.epochs ∧
    (buildTrainPayload num s.trainForm).batch_size = num s.trainForm.batch_size ∧
    (buildTrainPayload num s.trainForm).learning_rate = num s.trainForm.learning_rate ∧
    (buildTrainPayload num s.trainForm).local_data_dir =
      (if s.trainForm.local_data_dir = "" then none else some s.trainForm.local_data_dir) ∧
    (buildPredictPayload num s.predictForm).horizon = num s.predictForm.horizon ∧
    (buildPredictPayload num s.predictForm).history_points = num s.predictForm.history_points ∧
    (buildPredictPayload num s.predictForm).local_data_dir =
      (if s.predictForm.local_data_dir = "" then none else some s.predictForm.local_data_dir) := by
  refine ⟨?_, ?_, rfl, rfl, rfl, rfl, rfl, rfl, rfl, rfl, rfl⟩
  · cases rt <;> rfl
  · cases rp <;> rfl

/-- Claim C2, counterexample: a failed symbols fetch does not surface its error
in the alert region. With the error message "network down" the claim requires
the error state to become "network down", but the catch block of `loadSymbols`
leaves the error state untouched. -/
theorem c2_symbols_error_counterexample :
    (loadSymbols initialState "local" ""
        (Except.error { responseDetail := none, message := "network down" })).1.error = "" ∧
    ("" : String) ≠ "network down" := by
  exact ⟨rfl, by decide⟩

/-- Claim C2 as amended: a failed train submit, predict submit or history load
sets the error state to `err?.response?.data?.detail || err.message || fallback`
and is never retried (one request per run), while a failed symbols fetch is
handled silently: the error state is left unchanged and the symbols are
cleared. -/
theorem c2_error_surface_amended (num : String → Rat) (s : AppState) (e : JsErr)
    (dataSource localDataDir : String) :
    (onTrainSubmit num s (Except.error e)).1.error = errMessage e "Training failed" ∧
    (onTrainSubmit num s (Except.error e)).2.length = 1 ∧
    (onPredictSubmit num s (Except.error e)).1.error = errMessage e "Prediction failed" ∧
    (onPredictSubmit num s (Except.error e)).2.length = 1 ∧
    (onLoadHistory num s (Except.error e)).1.error = errMessage e "History fetch failed" ∧
    (onLoadHistory num s (Except.error e)).2.length = 1 ∧
    (loadSymbols s dataSource localDataDir (Except.error e)).1.error = s.error ∧
    (loadSymbols s dataSource localDataDir (Except.error e)).1.symbols = [] ∧
    (loadSymbols s dataSource localDataDir (Except.error e)).2.length ≤ 1 := by
  refine ⟨rfl, rfl, rfl, rfl, rfl, rfl, ?_, ?_, ?_⟩ <;>
    by_cases h : dataSource = "yfinance" <;> simp [loadSymbols, h]

/-- Claim C3, counterexample: the symbols refresh does not always issue exactly
one HTTP call. When the selected data source is `"yfinance"`, `loadSymbols`
returns early and issues no request at all. -/
theorem c3_single_call_counterexample :
    (loadSymbols initialState "yfinance" ""
      (Except.ok { symbols := none })).2.length ≠ 1 := by
  decide

/-- Claim C3 as amended: train submit, predict submit and load-history each
issue exactly one HTTP call and store the awaited result in component state; a
symbols refresh issues exactly one call unless the data source is `"yfinance"`,
in which case it issues none; no action ever issues more than one request. -/
theorem c3_single_call_amended (num : String → Rat) (s : AppState)
    (rt : Except JsErr TrainResult) (rp : Except JsErr ForecastResult)
    (rh : Except JsErr HistoryResponse) (rs : Except JsErr SymbolsResponse)
    (dataSource localDataDir : String)
    (dt : TrainResult) (dp : ForecastResult) (dh : HistoryResponse) :
    (onTrainSubmit num s rt).2.length = 1 ∧
    (onPredictSubmit num s rp).2.length = 1 ∧
    (onLoadHistory num s rh).2.length = 1 ∧
    (loadSymbols s dataSource localDataDir rs).2.length =
      (if dataSource = "yfinance" then 0 else 1) ∧
    (onTrainSubmit num s (Except.ok dt)).1.trainResult = some dt ∧
    (onPredictSubmit num s (Except.ok dp)).1.forecastResult = some dp ∧
    (onLoadHistory num s (Except.ok dh)).1.historyOnly = dh.history.getD [] := by
  refine ⟨?_, ?_, ?_, ?_, rfl, rfl, rfl⟩
  · cases rt <;> rfl
  · cases rp <;> rfl
  · cases rh <;> rfl
  · by_cases h : dataSource = "yfinance" <;> cases rs <;> simp [loadSymbols, h]

/-- Claim C7: after a symbols fetch, the symbols state equals the response's
symbols list when the fetch succeeds and the field is present, and is empty
when the field is absent, when the fetch fails, or when the selected data
source is `"yfinance"` (in which case no request is issued at all). -/
theorem c7_symbols_state (s : AppState) (dataSource localDataDir : String)
    (l : List String) (e : JsErr) (rs : Except JsErr SymbolsResponse)
    (h : dataSource ≠ "yfinance") :
    (loadSymbols s dataSource localDataDir (Except.ok { symbols := some l })).1.symbols = l ∧
    (loadSymbols s dataSource localDataDir (Except.ok { symbols := none })).1.symbols = [] ∧
    (loadSymbols s dataSource localDataDir (Except.error e)).1.symbols = [] ∧
    (loadSymbols s "yfinance" localDataDir rs).1.symbols = [] ∧
    (loadSymbols s "yfinance" localDataDir rs).2 = [] := by
  refine ⟨?_, ?_, ?_, ?_, ?_⟩ <;> simp [loadSymbols, h]

/-- Concrete instance of `c7_symbols_state` at an explicit state, source and
response. -/
theorem c7_symbols_state_witness :
    (loadSymbols initialState "local" ""
      (Except.ok { symbols := some ["RELIANCE"] })).1.symbols = ["RELIANCE"] :=
  (c7_symbols_state initialState "local" "" ["RELIANCE"]
    { responseDetail := none, message := "x" }
    (Except.ok { symbols := none }) (by decide)).1

/-- Initially no forecast result is stored. -/
theorem atMostOneSeries_initial : atMostOneSeries initialState :=
  Or.inl rfl

/-- Every completed action preserves the chart-source exclusivity: a
successful predict clears `historyOnly`, a successful history load clears
`forecastResult`, and no other action touches either field. -/
theorem atMostOneSeries_step (num : String → Rat) (s : AppState) (a : Action)
    (h : atMostOneSeries s) : atMostOneSeries (step num s a).1 := by
  cases a with
  | trainAction resp =>
      cases resp <;> simpa [step, onTrainSubmit, atMostOneSeries] using h
  | predictAction resp =>
      cases resp with
      | ok d => exact Or.inr rfl
      | error e => simpa [step, onPredictSubmit, atMostOneSeries] using h
  | historyAction resp =>
      cases resp with
      | ok d => exact Or.inl rfl
      | error e => simpa [step, onLoadHistory, atMostOneSeries] using h
  | symbolsAction resp =>
      by_cases hy : s.trainForm.data_source = "yfinance" <;> cases resp <;>
        simpa [step, loadSymbols, hy, atMostOneSeries] using h
  | pickSymbol symbol =>
      simpa [step, applySymbol, atMostOneSeries] using h
  | editTrain form =>
      simpa [step, atMostOneSeries] using h
  | editPredict form =>
      simpa [step, atMostOneSeries] using h

/-- The exclusivity invariant holds along any run of completed actions. -/
theorem atMostOneSeries_run (num : String → Rat) (acts : List Action)
    (s : AppState) (h : atMostOneSeries s) :
    atMostOneSeries (runActions num s acts) := by
  induction acts generalizing s with
  | nil => exact h
  | cons a rest ih => exact ih (step num s a).1 (atMostOneSeries_step num s a h)

/-- Claim C8: after every sequence of completed user actions from the initial
state, at most one of `forecastResult` and `historyOnly` is populated; a
successful predict stores the forecast result and clears the history-only
series, and a successful history load stores the history series and clears the
forecast result. -/
theorem c8_series_invariant (num : String → Rat) (acts : List Action)
    (s : AppState) (dp : ForecastResult) (dh : HistoryResponse) :
    atMostOneSeries (runActions num initialState acts) ∧
    (onPredictSubmit num s (Except.ok dp)).1.forecastResult = some dp ∧
    (onPredictSubmit num s (Except.ok dp)).1.historyOnly = [] ∧
    (onLoadHistory num s (Except.ok dh)).1.historyOnly = dh.history.getD [] ∧
    (onLoadHistory num s (Except.ok dh)).1.forecastResult = none :=
  ⟨atMostOneSeries_run num acts initialState atMostOneSeries_initial,
    rfl, rfl, rfl, rfl⟩

/-- Claim C4: the forecast tape has one row per forecast point in order; row
`i` (1-based) carries `step = i`, the point's date and value,
`delta = value - last_close`, and `pct = (delta / last_close) * 100` guarded to
`0` when `last_close = 0`; with no forecast result the tape is empty. -/
theorem c4_forecast_rows (fr : ForecastResult) (i : Nat) :
    forecastRows none = [] ∧
    (forecastRows (some fr)).length = fr.forecast.length ∧
    (forecastRows (some fr))[i]? = (fr.forecast[i]?).map (fun point =>
      { step := i + 1, date := point.date, value := point.value,
        delta := point.value - fr.last_close,
        pct := if fr.last_close = 0 then 0
          else (point.value - fr.last_close) / fr.last_close * 100 }) := by
  refine ⟨rfl, ?_, ?_⟩
  · simp [forecastRows]
  · simp [forecastRows, List.getElem?_enum]
    cases fr.forecast[i]? <;> rfl

/-- Claim C5: with a forecast result the chart series is the mapped history
points followed by the mapped forecast points, of total length
`|history| + |forecast|`; with no forecast result a non-empty history-only
series is mapped alone; otherwise the chart series is empty. -/
theorem c5_chart_data (fr : ForecastResult) (historyOnly : List Point) :
    chartData (some fr) historyOnly =
      fr.history.map (fun point =>
        { date := point.date, history := some point.value, forecast := none })
        ++ fr.forecast.map (fun point =>
        { date := point.date, history := none, forecast := some point.value }) ∧
    (chartData (some fr) historyOnly).length =
      fr.history.length + fr.forecast.length ∧
    (historyOnly ≠ [] → chartData none historyOnly = historyOnly.map (fun point =>
      { date := point.date, history := some point.value, forecast := none })) ∧
    chartData none [] = [] := by
  refine ⟨rfl, ?_, ?_, rfl⟩
  · simp [chartData]
  · intro h
    have hp : historyOnly.length > 0 := List.length_pos.mpr h
    simp [chartData, hp]

/-- Concrete instance of `c5_chart_data` at a one-point history-only series. -/
theorem c5_chart_data_witness :
    chartData none [({ date := "d1", value := 1 } : Point)] =
      ([({ date := "d1", value := 1 } : Point)]).map (fun point =>
        { date := point.date, history := some point.value, forecast := none }) :=
  (c5_chart_data
    { ticker := "RELIANCE", source := "local", last_close := 0, horizon := 1,
      history := [], forecast := [] }
    [({ date := "d1", value := 1 } : Point)]).2.2.1 (by decide)

/-- Claim C1: the client consumes exactly four endpoints — `trainModel` issues
`POST /api/train`, `predictStock` issues `POST /api/predict`, `getSymbols`
issues `GET /api/symbols`, `getHistory` issues `GET /api/history` — and every
request emitted by any completed user action goes through one of these four
wrapper functions. -/
theorem c1_endpoints (num : String → Rat) (s : AppState) (a : Action)
    (r : Request) (p1 : TrainPayload) (p2 : PredictPayload)
    (p3 : SymbolsParams) (p4 : HistoryParams)
    (hr : r ∈ (step num s a).2) :
    ((trainModel p1).method = Method.POST ∧ (trainModel p1).path = "/api/train") ∧
    ((predictStock p2).method = Method.POST ∧ (predictStock p2).path = "/api/predict") ∧
    ((getSymbols p3).method = Method.GET ∧ (getSymbols p3).path = "/api/symbols") ∧
    ((getHistory p4).method = Method.GET ∧ (getHistory p4).path = "/api/history") ∧
    viaApiWrapper r := by
  refine ⟨⟨rfl, rfl⟩, ⟨rfl, rfl⟩, ⟨rfl, rfl⟩, ⟨rfl, rfl⟩, ?_⟩
  cases a with
  | trainAction resp =>
      cases resp <;>
        · simp [step, onTrainSubmit] at hr
          exact Or.inl ⟨_, hr⟩
  | predictAction resp =>
      cases resp <;>
        · simp [step, onPredictSubmit] at hr
          exact Or.inr (Or.inl ⟨_, hr⟩)
  | historyAction resp =>
      cases resp <;>
        · simp [step, onLoadHistory] at hr
          exact Or.inr (Or.inr (Or.inr ⟨_, hr⟩))
  | symbolsAction resp =>
      by_cases hy : s.trainForm.data_source = "yfinance"
      · simp [step, loadSymbols, hy] at hr
      · cases resp <;>
          · simp [step, loadSymbols, hy] at hr
            exact Or.inr (Or.inr (Or.inl ⟨_, hr⟩))
  | pickSymbol symbol => simp [step] at hr
  | editTrain form => simp [step] at hr
  | editPredict form => simp [step] at hr

/-- Concrete instance of `c1_endpoints`: the request issued by a concrete
train submission from the initial state. -/
theorem c1_endpoints_witness :
    viaApiWrapper (trainModel (buildTrainPayload (fun _ => (0 : Rat)) initialTrain)) :=
  (c1_endpoints (fun _ => (0 : Rat)) initialState
    (Action.trainAction (Except.error { responseDetail := none, message := "x" }))
    (trainModel (buildTrainPayload (fun _ => (0 : Rat)) initialTrain))
    (buildTrainPayload (fun _ => (0 : Rat)) initialTrain)
    (buildPredictPayload (fun _ => (0 : Rat)) initialPredict)
    { data_source := "local", local_data_dir := none }
    { ticker := "RELIANCE", history_points := 90, data_source := "local",
      local_data_dir := none }
    (List.mem_singleton.mpr rfl)).2.2.2.2

end Kavout
